import Mathlib

/-!
Shallow embedding of the invoice-lifecycle core of the shopify-billing-backend
repository: the order classifier (webhook `orders/create`), the cancellation
compensation handler (webhook `orders/updated`), the manual credit-note
endpoint, the billing-profile re-classification handlers, and the retry/cron
engine (`/api/cron/retry-pending`), together with theorems settling the
frozen claims about them.

Database rows are modelled as Lean structures and the Prisma store as lists
of rows; every handler is a pure function from the store (plus the webhook
payload, the current time, and the outcome of the external SDI issuer call)
to the new store.  String-valued statuses of the TypeScript code are
modelled as inductive types; JavaScript truthiness of optional strings is
modelled explicitly (`null`/`undefined`/empty string are falsy).
-/

namespace ShopifyBilling

/-- Values stored in `OrderSnapshot.invoiceStatus` across the code base
(the zod `orderSnapshotSchema` admits only the first four; the handlers
additionally write `CORRISPETTIVO` and `CANCELLED` through Prisma). -/
inductive InvoiceStatus
  | PENDING
  | ISSUED
  | ERROR
  | FOREIGN
  | CORRISPETTIVO
  | CANCELLED
  deriving DecidableEq, Repr

/-- Values stored in `QueueJob.status`. -/
inductive JobStatus
  | PENDING
  | PROCESSING
  | COMPLETED
  | FAILED
  deriving DecidableEq, Repr

/-- Billing profile row (`prisma.billingProfile`), keyed by `userId`;
only the fields the modelled handlers read. -/
structure BillingProfile where
  userId : String
  isBusiness : Bool
  vatNumber : Option String
  taxCode : Option String
  countryCode : Option String
  deriving DecidableEq, Repr

/-- User row (`prisma.user`); only the fields the modelled handlers read. -/
structure User where
  id : String
  shopifyCustomerId : String
  countryCode : Option String
  deriving DecidableEq, Repr

/-- Order snapshot row (`prisma.orderSnapshot`). -/
structure OrderSnapshot where
  id : String
  userId : String
  shopifyOrderId : String
  orderNumber : Option String
  totalPrice : Option Int
  hasVatProfile : Bool
  invoiceStatus : InvoiceStatus
  invoiceId : Option String
  invoiceDate : Option Nat
  lastError : Option String
  deriving DecidableEq, Repr

/-- Queue job row (`prisma.queueJob`); the JSON payload of `invoice` jobs is
the single field `shopifyOrderId`, stored here directly.  Times are epoch
milliseconds. -/
structure QueueJob where
  id : Nat
  jobType : String
  payloadShopifyOrderId : String
  status : JobStatus
  attempts : Nat
  scheduledAt : Nat
  lastError : Option String
  processedAt : Option Nat
  deriving DecidableEq, Repr

/-- Credit note row (`prisma.creditNote`).  `orderId` is whatever string the
creating code path stored there (the cancellation webhook stores the internal
`OrderSnapshot.id`, the manual endpoint stores the Shopify order id). -/
structure CreditNote where
  id : Nat
  orderId : String
  reason : Option String
  totalAmount : Int
  sdiCreditId : Option String
  status : String
  deriving DecidableEq, Repr

/-- The durable store: one list per Prisma table plus a counter for generated
ids (cuid generation is modelled by the counter). -/
structure Db where
  users : List User
  profiles : List BillingProfile
  orders : List OrderSnapshot
  jobs : List QueueJob
  notes : List CreditNote
  nextId : Nat
  deriving Repr

/-- JavaScript truthiness of an optional string field: `null`/`undefined`
and the empty string are falsy. -/
def truthyS : Option String → Bool
  | none => false
  | some s => !s.isEmpty

/-- JavaScript `a || b` on optional string fields. -/
def orElseS (a b : Option String) : Option String :=
  if truthyS a then a else b

/-- JavaScript `a || b` resolved to a plain string default. -/
def orDefault (a : Option String) (b : String) : String :=
  match a with
  | none => b
  | some s => if s.isEmpty then b else s

/-- Lookup `prisma.user.findUnique({ where: { shopifyCustomerId } })`. -/
def findUserByShopifyId (db : Db) (cid : String) : Option User :=
  db.users.find? (fun u => u.shopifyCustomerId == cid)

/-- Lookup of the billing profile included with a user (relation keyed by
`userId`). -/
def profileOf (db : Db) (userId : String) : Option BillingProfile :=
  db.profiles.find? (fun p => p.userId == userId)

/-- Lookup `prisma.orderSnapshot.findUnique({ where: { shopifyOrderId } })`. -/
def findOrderByShopifyId (db : Db) (soid : String) : Option OrderSnapshot :=
  db.orders.find? (fun o => o.shopifyOrderId == soid)

/-- Number of order snapshot rows with the given Shopify order id. -/
def ordersFor (db : Db) (soid : String) : Nat :=
  db.orders.countP (fun o => o.shopifyOrderId == soid)

/-- Number of `invoice` queue jobs whose payload references the given
Shopify order id. -/
def invoiceJobsFor (db : Db) (soid : String) : Nat :=
  db.jobs.countP (fun j => j.jobType == "invoice" && j.payloadShopifyOrderId == soid)

/-- Number of credit notes stored under the given `orderId` key. -/
def notesFor (db : Db) (oid : String) : Nat :=
  db.notes.countP (fun n => n.orderId == oid)

/-- Point update of a single queue job row (`prisma.queueJob.update({ where:
{ id } })`): the `where` clause names only the primary key, so the update
applies whatever the row's current status is. -/
def updateJob (db : Db) (jid : Nat) (f : QueueJob → QueueJob) : Db :=
  { db with jobs := db.jobs.map (fun j => if j.id == jid then f j else j) }

/-- Point update `prisma.orderSnapshot.update({ where: { shopifyOrderId } })`
and bulk update `updateMany({ where: { shopifyOrderId } })` (the column is
unique, so both touch the rows whose `shopifyOrderId` matches). -/
def updateOrdersByShopifyId (db : Db) (soid : String) (f : OrderSnapshot → OrderSnapshot) : Db :=
  { db with orders := db.orders.map (fun o => if o.shopifyOrderId == soid then f o else o) }

/-- Point update `prisma.orderSnapshot.update({ where: { id } })`. -/
def updateOrderById (db : Db) (oid : String) (f : OrderSnapshot → OrderSnapshot) : Db :=
  { db with orders := db.orders.map (fun o => if o.id == oid then f o else o) }

/-- Creation of a fresh `invoice` queue job (`prisma.queueJob.create` with
`type: 'invoice'`, `payload: { shopifyOrderId }`, `status: 'PENDING'`,
`scheduledAt: new Date()`). -/
def createInvoiceJob (db : Db) (soid : String) (now : Nat) : Db :=
  let newJob : QueueJob :=
    { id := db.nextId
      jobType := "invoice"
      payloadShopifyOrderId := soid
      status := .PENDING
      attempts := 0
      scheduledAt := now
      lastError := none
      processedAt := none }
  { db with jobs := db.jobs ++ [newJob], nextId := db.nextId + 1 }

/-- Result of a handler invocation: the store after the request together
with the HTTP status code of the response. -/
structure HandlerResult where
  db : Db
  httpStatus : Nat
  deriving Repr

/-- Parsed payload of the Shopify order-creation webhook
(`shopifyOrderWebhookSchema`): ids are stringified numbers. -/
structure OrderWebhook where
  id : String
  orderNumber : String
  customerId : String
  totalPrice : Int
  billingCountryCode : Option String
  deriving Repr

/-- Check from `src/app/api/webhooks/orders/create/route.ts` lines 155-158:
`user.billingProfile && user.billingProfile.isBusiness && billingCountryCode
=== 'IT' && (user.billingProfile.vatNumber || user.billingProfile.taxCode)`. -/
def hasVatProfileCheck (p? : Option BillingProfile) (bcc : Option String) : Bool :=
  match p? with
  | none => false
  | some p => p.isBusiness && bcc == some "IT" && (truthyS p.vatNumber || truthyS p.taxCode)

/-- Classification chain of `orders/create/route.ts` lines 160-173:
foreign billing country → FOREIGN, Italian without qualified profile →
CORRISPETTIVO, Italian with qualified profile → PENDING, fallback PENDING. -/
def classifyOrder (hasVat : Bool) (bcc : Option String) : InvoiceStatus :=
  if truthyS bcc && bcc != some "IT" then .FOREIGN
  else if !hasVat && bcc == some "IT" then .CORRISPETTIVO
  else if hasVat && bcc == some "IT" then .PENDING
  else .PENDING

/-- Runtime enum of `orderSnapshotSchema.invoiceStatus` in
`src/lib/validators.ts` line 57: `z.enum(['PENDING', 'ISSUED', 'ERROR',
'FOREIGN'])`.  `parse` throws for any other value. -/
def orderSnapshotSchemaAllows : InvoiceStatus → Bool
  | .PENDING => true
  | .ISSUED => true
  | .ERROR => true
  | .FOREIGN => true
  | .CORRISPETTIVO => false
  | .CANCELLED => false

/-- Upsert of `orders/create/route.ts` lines 189-195: keyed by
`shopifyOrderId`; the update path rewrites the snapshot fields carried by the
webhook (leaving `id`, `invoiceId`, `invoiceDate`, `lastError` as they are),
the create path inserts a fresh row. -/
def upsertOrderSnapshot (db : Db) (w : OrderWebhook) (userId : String)
    (hasVat : Bool) (stat : InvoiceStatus) : Db :=
  match findOrderByShopifyId db w.id with
  | some _ =>
    updateOrdersByShopifyId db w.id (fun o =>
      { o with userId := userId
               orderNumber := some w.orderNumber
               totalPrice := some w.totalPrice
               hasVatProfile := hasVat
               invoiceStatus := stat })
  | none =>
    let newRow : OrderSnapshot :=
      { id := toString db.nextId
        userId := userId
        shopifyOrderId := w.id
        orderNumber := some w.orderNumber
        totalPrice := some w.totalPrice
        hasVatProfile := hasVat
        invoiceStatus := stat
        invoiceId := none
        invoiceDate := none
        lastError := none }
    { db with orders := db.orders ++ [newRow], nextId := db.nextId + 1 }

/-- POST `/api/webhooks/orders/create` (`route.ts` lines 150-212), the path
for a customer already present in the store.  The new-customer branch of the
route (lines 33-148, which additionally calls the Shopify metafields API) is
outside this model; for an unknown customer the function returns the store
unchanged with the marker status 0 and no theorem below relies on that case.
The zod `orderSnapshotSchema.parse` on line 187 runs before the upsert, so a
status outside its enum aborts the handler (caught as a 500) with no write. -/
def ordersCreatePOST (db : Db) (w : OrderWebhook) (now : Nat) : HandlerResult :=
  match findUserByShopifyId db w.customerId with
  | none => { db := db, httpStatus := 0 }
  | some user =>
    let bcc := orElseS w.billingCountryCode user.countryCode
    let hasVat := hasVatProfileCheck (profileOf db user.id) bcc
    let stat := classifyOrder hasVat bcc
    if orderSnapshotSchemaAllows stat then
      let db1 := upsertOrderSnapshot db w user.id hasVat stat
      let db2 := if hasVat && stat == .PENDING then createInvoiceJob db1 w.id now else db1
      { db := db2, httpStatus := 200 }
    else
      { db := db, httpStatus := 500 }

/-- Parsed payload of the Shopify order-updated webhook
(`shopifyOrderUpdatedSchema` in the order-cancellation route). -/
structure OrderUpdatedWebhook where
  id : String
  cancelledAt : Option String
  cancelledReason : Option String
  deriving Repr

/-- POST of the order-updated (cancellation) webhook route.  Mirrors the
business-rule chain of that handler: CORRISPETTIVO/FOREIGN → cancel only;
ISSUED → credit note keyed by the internal `order.id` unless one already
exists under that key, then cancel; PENDING/ERROR → cancel only; CANCELLED →
no-op.  Every response is HTTP 200. -/
def ordersUpdatedPOST (db : Db) (w : OrderUpdatedWebhook) : HandlerResult :=
  match findOrderByShopifyId db w.id with
  | none => { db := db, httpStatus := 200 }
  | some order =>
    if !truthyS w.cancelledAt then { db := db, httpStatus := 200 }
    else
      let reason := orDefault w.cancelledReason "N/A"
      match order.invoiceStatus with
      | .CORRISPETTIVO =>
        { db := updateOrdersByShopifyId db w.id (fun o =>
            { o with invoiceStatus := .CANCELLED
                     lastError := some ("Ordine annullato: " ++ reason) })
          httpStatus := 200 }
      | .FOREIGN =>
        { db := updateOrdersByShopifyId db w.id (fun o =>
            { o with invoiceStatus := .CANCELLED
                     lastError := some ("Ordine annullato: " ++ reason) })
          httpStatus := 200 }
      | .ISSUED =>
        match db.notes.find? (fun n => n.orderId == order.id) with
        | some _ =>
          { db := updateOrdersByShopifyId db w.id (fun o =>
              { o with invoiceStatus := .CANCELLED
                       lastError := some ("Ordine annullato con nota di credito esistente: " ++ reason) })
            httpStatus := 200 }
        | none =>
          let newNote : CreditNote :=
            { id := db.nextId
              orderId := order.id
              reason := some (orDefault w.cancelledReason "Ordine annullato")
              totalAmount := order.totalPrice.getD 0
              sdiCreditId := none
              status := "PENDING" }
          let db1 : Db := { db with notes := db.notes ++ [newNote], nextId := db.nextId + 1 }
          { db := updateOrdersByShopifyId db1 w.id (fun o =>
              { o with invoiceStatus := .CANCELLED
                       lastError := some ("Ordine annullato - Nota di credito creata: " ++ reason) })
            httpStatus := 200 }
      | .PENDING =>
        { db := updateOrdersByShopifyId db w.id (fun o =>
            { o with invoiceStatus := .CANCELLED
                     lastError := some ("Ordine annullato: " ++ reason) })
          httpStatus := 200 }
      | .ERROR =>
        { db := updateOrdersByShopifyId db w.id (fun o =>
            { o with invoiceStatus := .CANCELLED
                     lastError := some ("Ordine annullato: " ++ reason) })
          httpStatus := 200 }
      | .CANCELLED => { db := db, httpStatus := 200 }

/-- Outcome of one external SDI issuer call (`openAPIClient.issueInvoice` /
`issueCreditNote`): either the `{ id, date }` the client returns, or a thrown
exception with its message. -/
inductive IssueOutcome
  | ok (extId : String) (extDate : Nat)
  | throwErr (msg : String)
  deriving DecidableEq, Repr

/-- Resolution of the `user` relation included with an order. -/
def userOf (db : Db) (o : OrderSnapshot) : Option User :=
  db.users.find? (fun u => u.id == o.userId)

/-- POST `/api/credit-notes/issue`: requires the order ISSUED; a foreign
customer gets a locally recorded FOREIGN note; otherwise a qualified profile
is required and the SDI call is made.  Both creation paths store the
note with `orderId: shopifyOrderId` (the external id, unlike the
cancellation webhook which stores the internal `order.id`). -/
def creditNotesIssuePOST (db : Db) (soid : String) (reason : String)
    (issuer : IssueOutcome) : HandlerResult :=
  match findOrderByShopifyId db soid with
  | none => { db := db, httpStatus := 404 }
  | some order =>
    if order.invoiceStatus != .ISSUED then { db := db, httpStatus := 400 }
    else
      match userOf db order with
      | none => { db := db, httpStatus := 500 }
      | some u =>
        if truthyS u.countryCode && u.countryCode != some "IT" then
          let newNote : CreditNote :=
            { id := db.nextId
              orderId := soid
              reason := some reason
              totalAmount := order.totalPrice.getD 0
              sdiCreditId := none
              status := "FOREIGN" }
          { db := { db with notes := db.notes ++ [newNote], nextId := db.nextId + 1 }
            httpStatus := 200 }
        else if !order.hasVatProfile || (profileOf db u.id).isNone then
          { db := db, httpStatus := 400 }
        else
          match issuer with
          | .throwErr _ => { db := db, httpStatus := 500 }
          | .ok cid _ =>
            let newNote : CreditNote :=
              { id := db.nextId
                orderId := soid
                reason := some reason
                totalAmount := order.totalPrice.getD 0
                sdiCreditId := some cid
                status := "ISSUED" }
            { db := { db with notes := db.notes ++ [newNote], nextId := db.nextId + 1 }
              httpStatus := 200 }

/-- Billing-profile data accepted by the profile-update endpoint
(`billingProfileSchema`), restricted to the fields the re-classification
logic reads; the format validations (VAT regex, fiscal-code regex) are
assumed to have passed. -/
structure ProfileInput where
  isBusiness : Bool
  vatNumber : Option String
  taxCode : Option String
  countryCode : Option String
  deriving Repr

/-- Upsert `prisma.billingProfile.upsert({ where: { userId } })`. -/
def upsertProfile (db : Db) (userId : String) (pin : ProfileInput) : Db :=
  match profileOf db userId with
  | some _ =>
    { db with profiles := db.profiles.map (fun p =>
        if p.userId == userId then
          { p with isBusiness := pin.isBusiness
                   vatNumber := pin.vatNumber
                   taxCode := pin.taxCode
                   countryCode := pin.countryCode }
        else p) }
  | none =>
    { db with profiles := db.profiles ++
        [{ userId := userId
           isBusiness := pin.isBusiness
           vatNumber := pin.vatNumber
           taxCode := pin.taxCode
           countryCode := pin.countryCode }] }

/-- Loop of the re-classification block: one `prisma.queueJob.create` per
order in the fetched list. -/
def enqueueAll (db : Db) (l : List OrderSnapshot) (now : Nat) : Db :=
  l.foldl (fun d o => createInvoiceJob d o.shopifyOrderId now) db

/-- POST of the customer billing-profile route: upserts the profile (a VAT
number forces `isBusiness`), then — only when the profile is business with a
VAT number and country IT — flips `hasVatProfile` on every PENDING order of
the user and enqueues one invoice job per (now flagged) PENDING order. -/
def billingProfilePOST (db : Db) (cid : String) (pin0 : ProfileInput) (now : Nat) :
    HandlerResult :=
  match findUserByShopifyId db cid with
  | none => { db := db, httpStatus := 404 }
  | some user =>
    let pin := if truthyS pin0.vatNumber then { pin0 with isBusiness := true } else pin0
    let db1 := upsertProfile db user.id pin
    if pin.isBusiness && truthyS pin.vatNumber && pin.countryCode == some "IT" then
      let db2 : Db := { db1 with orders := db1.orders.map (fun o =>
        if o.userId == user.id && o.invoiceStatus == .PENDING then
          { o with hasVatProfile := true }
        else o) }
      let pending := db2.orders.filter (fun o =>
        o.userId == user.id && o.invoiceStatus == .PENDING && o.hasVatProfile)
      { db := enqueueAll db2 pending now, httpStatus := 200 }
    else
      { db := db1, httpStatus := 200 }

/-- Retry limit of the cron route (`const maxRetries = 3`). -/
def maxRetries : Nat := 3

/-- Batch bound of the cron route (`const batchSize = 10`). -/
def batchSize : Nat := 10

/-- Fixed backoff of the cron route (`5 * 60 * 1000` ms). -/
def fiveMinutesMs : Nat := 5 * 60 * 1000

/-- Cleanup horizon of the cron route (`7 * 24 * 60 * 60 * 1000` ms). -/
def sevenDaysMs : Nat := 7 * 24 * 60 * 60 * 1000

/-- Insertion step of the `orderBy: { scheduledAt: 'asc' }` sort. -/
def insertBySched (j : QueueJob) : List QueueJob → List QueueJob
  | [] => [j]
  | k :: ks => if j.scheduledAt ≤ k.scheduledAt then j :: k :: ks else k :: insertBySched j ks

/-- Stable sort of jobs by ascending `scheduledAt`. -/
def sortBySched : List QueueJob → List QueueJob
  | [] => []
  | j :: js => insertBySched j (sortBySched js)

/-- The `findMany` of the cron route: jobs with `status: 'PENDING'`,
`attempts < maxRetries`, `scheduledAt <= now`, ordered by `scheduledAt`
ascending, first `batchSize` of them. -/
def dueJobs (db : Db) (now : Nat) : List QueueJob :=
  (sortBySched (db.jobs.filter (fun j =>
    j.status == .PENDING && decide (j.attempts < maxRetries) &&
    decide (j.scheduledAt ≤ now)))).take batchSize

/-- The claim step of the cron route: `prisma.queueJob.update({ where: { id:
job.id }, data: { status: 'PROCESSING', attempts: { increment: 1 } } })`.
The `where` clause is the primary key alone — there is no `status:
'PENDING'` condition — so the write succeeds whatever the row's current
status. -/
def claimJob (db : Db) (jid : Nat) : Db :=
  updateJob db jid (fun j => { j with status := .PROCESSING, attempts := j.attempts + 1 })

/-- Which branch of the per-job `if` chain of the cron route fires, following
the JavaScript evaluation order (the `order.user` dereference happens only
when the earlier conditions fall through; a missing relation would throw,
modelled as `brokenUserRelation`). -/
inductive JobBranch
  | orderMissing
  | alreadyIssued
  | foreignCustomer
  | missingProfile
  | issueAttempt
  | brokenUserRelation
  | badType
  deriving DecidableEq, Repr

/-- Branch decision of the cron route for one job against the current
store. -/
def jobBranch (db : Db) (job : QueueJob) : JobBranch :=
  if job.jobType != "invoice" then .badType
  else
    match findOrderByShopifyId db job.payloadShopifyOrderId with
    | none => .orderMissing
    | some order =>
      if order.invoiceStatus == .ISSUED then .alreadyIssued
      else if order.invoiceStatus == .FOREIGN then .foreignCustomer
      else
        match userOf db order with
        | none => .brokenUserRelation
        | some u =>
          if truthyS u.countryCode && u.countryCode != some "IT" then .foreignCustomer
          else if !order.hasVatProfile || (profileOf db u.id).isNone then .missingProfile
          else .issueAttempt

/-- Whether the failing attempt is the last allowed one: `job.attempts >=
maxRetries - 1`, evaluated on the `attempts` value of the `findMany`
snapshot (taken before the claim step incremented the row). -/
def isFinalFailure (job : QueueJob) : Bool :=
  decide (maxRetries - 1 ≤ job.attempts)

/-- Failure handling of the cron route for a failure reported through
`errorMessage` (no exception): the job row becomes FAILED, or returns to
PENDING rescheduled `now + 5 min`; on a final failure of an `invoice` job
every snapshot with that Shopify order id is additionally set to ERROR. -/
def softFail (db : Db) (job : QueueJob) (msg : String) (now : Nat) : Db :=
  let db1 := updateJob db job.id (fun j =>
    { j with status := if isFinalFailure job then .FAILED else .PENDING
             lastError := some msg
             scheduledAt := if isFinalFailure job then j.scheduledAt else now + fiveMinutesMs })
  if isFinalFailure job && job.jobType == "invoice" then
    updateOrdersByShopifyId db1 job.payloadShopifyOrderId (fun o =>
      { o with invoiceStatus := .ERROR, lastError := some msg })
  else db1

/-- Failure handling of the cron route's `catch` block (a thrown exception):
identical job update, but no order update at all. -/
def exceptionFail (db : Db) (job : QueueJob) (msg : String) (now : Nat) : Db :=
  updateJob db job.id (fun j =>
    { j with status := if isFinalFailure job then .FAILED else .PENDING
             lastError := some msg
             scheduledAt := if isFinalFailure job then j.scheduledAt else now + fiveMinutesMs })

/-- Success finalisation of the cron route: job COMPLETED with `processedAt`
set (the only write of `processedAt` anywhere in the code base). -/
def completeJob (db : Db) (jid : Nat) (now : Nat) : Db :=
  updateJob db jid (fun j =>
    { j with status := .COMPLETED, processedAt := some now, lastError := none })

/-- Store after acting on a branch plus whether the external issuer was
called. -/
structure ProcOut where
  db : Db
  issuerCalled : Bool
  deriving Repr

/-- Body of the cron route's per-job processing after the branch is decided:
the order/job writes of each branch, with the issuer call outcome supplied
as `issuer`.  A successful `buildInvoiceData` is implied by the order having
been found (it re-reads the same row), so the `issueAttempt` branch reaches
the issuer call directly. -/
def performBranch (db : Db) (job : QueueJob) (b : JobBranch) (issuer : IssueOutcome)
    (now : Nat) : ProcOut :=
  match b with
  | .orderMissing =>
    { db := softFail db job "Order not found" now, issuerCalled := false }
  | .alreadyIssued =>
    { db := completeJob db job.id now, issuerCalled := false }
  | .foreignCustomer =>
    let db1 :=
      match findOrderByShopifyId db job.payloadShopifyOrderId with
      | some o => updateOrderById db o.id (fun o2 =>
          { o2 with invoiceStatus := .FOREIGN, lastError := none })
      | none => db
    { db := completeJob db1 job.id now, issuerCalled := false }
  | .missingProfile =>
    { db := softFail db job "Customer missing valid billing profile" now, issuerCalled := false }
  | .issueAttempt =>
    match issuer with
    | .ok extId extDate =>
      let db1 :=
        match findOrderByShopifyId db job.payloadShopifyOrderId with
        | some o => updateOrderById db o.id (fun o2 =>
            { o2 with invoiceStatus := .ISSUED
                      invoiceId := some extId
                      invoiceDate := some extDate
                      lastError := none })
        | none => db
      { db := completeJob db1 job.id now, issuerCalled := true }
    | .throwErr msg =>
      { db := exceptionFail db job msg now, issuerCalled := true }
  | .brokenUserRelation =>
    { db := exceptionFail db job "Unknown error" now, issuerCalled := false }
  | .badType =>
    { db := softFail db job ("Unknown job type: " ++ job.jobType) now, issuerCalled := false }

/-- One iteration of the cron route's job loop: claim (PROCESSING +
increment), re-read the order, act on the branch. -/
def processOneJob (db : Db) (job : QueueJob) (issuer : IssueOutcome) (now : Nat) : ProcOut :=
  let db1 := claimJob db job.id
  performBranch db1 job (jobBranch db1 job) issuer now

/-- Sequential processing of a claimed batch; `env` gives the issuer outcome
per job id. -/
def runBatch (db : Db) (jobs : List QueueJob) (env : Nat → IssueOutcome) (now : Nat) : Db :=
  jobs.foldl (fun d j => (processOneJob d j (env j.id) now).db) db

/-- Housekeeping `deleteMany` of the cron route: removes jobs whose status is
COMPLETED or FAILED *and* whose `processedAt` is a date earlier than `now -
7 days`; a row with `processedAt` NULL never matches the `lt` filter and is
kept. -/
def cleanupOldJobs (db : Db) (now : Nat) : Db :=
  { db with jobs := db.jobs.filter (fun j =>
      !((j.status == .COMPLETED || j.status == .FAILED) &&
        (match j.processedAt with
         | some t => decide (t < now - sevenDaysMs)
         | none => false))) }

/-- GET `/api/cron/retry-pending`: fetch the due batch; when it is empty the
route returns before the cleanup, otherwise it processes the batch and then
purges old terminal jobs. -/
def retryCronGET (db : Db) (env : Nat → IssueOutcome) (now : Nat) : Db :=
  let due := dueJobs db now
  if due.isEmpty then db
  else cleanupOldJobs (runBatch db due env now) now

/-- Program counter of one Retry Engine invocation, at the granularity of
the route's `await`ed store operations: the batch `findMany`, the claim
update, the order re-read with the branch decision, and the final writes of
the chosen branch (issuer call included).  Restricted to a batch of one job,
which suffices for the per-job concurrency claims. -/
inductive WPhase
  | fetching
  | claiming
  | deciding
  | acting
  | finished
  deriving DecidableEq, Repr

/-- Local state of one Retry Engine invocation: its `findMany` snapshot of
the job row and the branch it decided on. -/
structure Worker where
  phase : WPhase
  snap : Option QueueJob
  branch : Option JobBranch
  calledIssuer : Bool
  deriving Repr

/-- Invocation about to run its `findMany`. -/
def initWorker : Worker :=
  { phase := .fetching, snap := none, branch := none, calledIssuer := false }

/-- One atomic step of one invocation against the shared store. -/
def wstep (now : Nat) (issuer : IssueOutcome) (db : Db) (w : Worker) : Db × Worker :=
  match w.phase with
  | .fetching =>
    match dueJobs db now with
    | [] => (db, { w with phase := .finished })
    | j :: _ => (db, { w with snap := some j, phase := .claiming })
  | .claiming =>
    match w.snap with
    | some j => (claimJob db j.id, { w with phase := .deciding })
    | none => (db, { w with phase := .finished })
  | .deciding =>
    match w.snap with
    | some j => (db, { w with branch := some (jobBranch db j), phase := .acting })
    | none => (db, { w with phase := .finished })
  | .acting =>
    match w.snap, w.branch with
    | some j, some b =>
      let out := performBranch db j b issuer now
      (out.db, { w with phase := .finished
                        calledIssuer := w.calledIssuer || out.issuerCalled })
    | _, _ => (db, { w with phase := .finished })
  | .finished => (db, w)

/-- Shared store plus two concurrent Retry Engine invocations. -/
structure CState where
  db : Db
  w1 : Worker
  w2 : Worker
  deriving Repr

/-- Interleaving step: `true` advances the first invocation, `false` the
second. -/
def cstep (now : Nat) (issuer : IssueOutcome) (s : CState) (which : Bool) : CState :=
  if which then
    let p := wstep now issuer s.db s.w1
    { s with db := p.1, w1 := p.2 }
  else
    let p := wstep now issuer s.db s.w2
    { s with db := p.1, w2 := p.2 }

/-- Execution of a schedule (list of which-worker choices). -/
def execSched (now : Nat) (issuer : IssueOutcome) (s : CState) (sched : List Bool) : CState :=
  sched.foldl (cstep now issuer) s

/-- Concrete Italian business customer used in the scenarios below. -/
def uIT : User :=
  { id := "u1", shopifyCustomerId := "c1", countryCode := some "IT" }

/-- Qualified billing profile of `uIT` (business with a VAT number). -/
def pIT : BillingProfile :=
  { userId := "u1"
    isBusiness := true
    vatNumber := some "IT01234567890"
    taxCode := none
    countryCode := some "IT" }

/-- Concrete Italian retail customer (no billing profile row). -/
def uRetail : User :=
  { id := "u2", shopifyCustomerId := "c2", countryCode := some "IT" }

/-- Scenario C1: a business order that was cancelled while its invoice job
was still queued. -/
def oCancelled : OrderSnapshot :=
  { id := "5"
    userId := "u1"
    shopifyOrderId := "o5"
    orderNumber := some "1005"
    totalPrice := some 250
    hasVatProfile := true
    invoiceStatus := .CANCELLED
    invoiceId := none
    invoiceDate := none
    lastError := some "Ordine annullato: customer" }

/-- Scenario C1: the still-queued invoice job of the cancelled order. -/
def jC1 : QueueJob :=
  { id := 50
    jobType := "invoice"
    payloadShopifyOrderId := "o5"
    status := .PENDING
    attempts := 0
    scheduledAt := 0
    lastError := none
    processedAt := none }

/-- Scenario C1 store. -/
def dbC1 : Db :=
  { users := [uIT], profiles := [pIT], orders := [oCancelled], jobs := [jC1],
    notes := [], nextId := 6 }

/-- Scenario C2: order-creation webhook for customer `c1`. -/
def wC2 : OrderWebhook :=
  { id := "o1", orderNumber := "1001", customerId := "c1", totalPrice := 100,
    billingCountryCode := some "IT" }

/-- Scenario C2 store: the qualified customer exists, no orders or jobs
yet. -/
def dbC2 : Db :=
  { users := [uIT], profiles := [pIT], orders := [], jobs := [], notes := [],
    nextId := 0 }

/-- Scenario C3: a PENDING business order awaiting invoicing. -/
def oC3 : OrderSnapshot :=
  { id := "30"
    userId := "u1"
    shopifyOrderId := "o30"
    orderNumber := some "1030"
    totalPrice := some 100
    hasVatProfile := true
    invoiceStatus := .PENDING
    invoiceId := none
    invoiceDate := none
    lastError := none }

/-- Scenario C3: the due invoice job of `oC3`. -/
def jC3 : QueueJob :=
  { id := 300
    jobType := "invoice"
    payloadShopifyOrderId := "o30"
    status := .PENDING
    attempts := 0
    scheduledAt := 0
    lastError := none
    processedAt := none }

/-- Scenario C3 store. -/
def dbC3 : Db :=
  { users := [uIT], profiles := [pIT], orders := [oC3], jobs := [jC3],
    notes := [], nextId := 31 }

/-- Scenario C3: both engine invocations poised before their `findMany`. -/
def initC3 : CState :=
  { db := dbC3, w1 := initWorker, w2 := initWorker }

/-- Scenario C3 schedule: the two invocations run in lockstep (fetch,
fetch, claim, claim, decide, decide, act, act). -/
def schedC3 : List Bool :=
  [true, false, true, false, true, false, true, false]

/-- Scenario C4: a PENDING business order whose issuer call will throw. -/
def oC4 : OrderSnapshot :=
  { id := "40"
    userId := "u1"
    shopifyOrderId := "o40"
    orderNumber := some "1040"
    totalPrice := some 75
    hasVatProfile := true
    invoiceStatus := .PENDING
    invoiceId := none
    invoiceDate := none
    lastError := none }

/-- Scenario C4: its invoice job on the last allowed attempt (two attempts
already consumed). -/
def jC4 : QueueJob :=
  { id := 400
    jobType := "invoice"
    payloadShopifyOrderId := "o40"
    status := .PENDING
    attempts := 2
    scheduledAt := 0
    lastError := some "previous error"
    processedAt := none }

/-- Scenario C4 store. -/
def dbC4 : Db :=
  { users := [uIT], profiles := [pIT], orders := [oC4], jobs := [jC4],
    notes := [], nextId := 41 }

/-- Scenario C5: a first-attempt invoice job whose order does not exist. -/
def jC5 : QueueJob :=
  { id := 500
    jobType := "invoice"
    payloadShopifyOrderId := "missing-order"
    status := .PENDING
    attempts := 0
    scheduledAt := 0
    lastError := none
    processedAt := none }

/-- Scenario C5 store: the job's order is absent. -/
def dbC5 : Db :=
  { users := [uIT], profiles := [pIT], orders := [], jobs := [jC5],
    notes := [], nextId := 1 }

/-- Scenario C6: order-creation webhook for the retail customer `c2` with an
Italian billing address. -/
def wC6 : OrderWebhook :=
  { id := "o6", orderNumber := "1006", customerId := "c2", totalPrice := 60,
    billingCountryCode := some "IT" }

/-- Scenario C6 store: the retail customer exists without a billing
profile. -/
def dbC6 : Db :=
  { users := [uRetail], profiles := [], orders := [], jobs := [], notes := [],
    nextId := 0 }

/-- Scenario C7: an invoiced business order about to be cancelled. -/
def oC7 : OrderSnapshot :=
  { id := "70"
    userId := "u1"
    shopifyOrderId := "o70"
    orderNumber := some "1070"
    totalPrice := some 320
    hasVatProfile := true
    invoiceStatus := .ISSUED
    invoiceId := some "INV-70"
    invoiceDate := some 500
    lastError := none }

/-- Scenario C7 store. -/
def dbC7 : Db :=
  { users := [uIT], profiles := [pIT], orders := [oC7], jobs := [],
    notes := [], nextId := 71 }

/-- Scenario C7: the cancellation webhook for `oC7`. -/
def wC7 : OrderUpdatedWebhook :=
  { id := "o70", cancelledAt := some "2024-05-01T10:00:00Z",
    cancelledReason := some "customer" }

/-- Scenario C8: a PENDING order of `uRetail` not yet flagged for VAT. -/
def oC8 : OrderSnapshot :=
  { id := "80"
    userId := "u2"
    shopifyOrderId := "o80"
    orderNumber := some "1080"
    totalPrice := some 45
    hasVatProfile := false
    invoiceStatus := .PENDING
    invoiceId := none
    invoiceDate := none
    lastError := none }

/-- Scenario C8 store. -/
def dbC8 : Db :=
  { users := [uRetail], profiles := [], orders := [oC8], jobs := [],
    notes := [], nextId := 81 }

/-- Scenario C8: profile update that makes `uRetail` a qualified business
via a fiscal code only (no VAT number). -/
def pinTaxOnly : ProfileInput :=
  { isBusiness := true
    vatNumber := none
    taxCode := some "RSSMRA80A01H501U"
    countryCode := some "IT" }

/-- Scenario C8: profile update that makes `uRetail` a business with a VAT
number. -/
def pinVat : ProfileInput :=
  { isBusiness := true
    vatNumber := some "IT09876543210"
    taxCode := none
    countryCode := some "IT" }

/-- Scenario C9: a job that failed terminally long ago; the failure path
never wrote `processedAt`, so the column is still NULL. -/
def jOldFailed : QueueJob :=
  { id := 90
    jobType := "invoice"
    payloadShopifyOrderId := "gone"
    status := .FAILED
    attempts := 3
    scheduledAt := 0
    lastError := some "Order not found"
    processedAt := none }

/-- Scenario C9: a job completed at t=1000 ms, far more than 7 days before
the run. -/
def jOldDone : QueueJob :=
  { id := 91
    jobType := "invoice"
    payloadShopifyOrderId := "o91"
    status := .COMPLETED
    attempts := 1
    scheduledAt := 0
    lastError := none
    processedAt := some 1000 }

/-- Scenario C9: a due job so the run does not take the empty-batch early
return (which would skip the cleanup entirely). -/
def jDueC9 : QueueJob :=
  { id := 92
    jobType := "invoice"
    payloadShopifyOrderId := "gone2"
    status := .PENDING
    attempts := 0
    scheduledAt := 0
    lastError := none
    processedAt := none }

/-- Scenario C9 store. -/
def dbC9 : Db :=
  { users := [], profiles := [], orders := [], jobs := [jOldFailed, jOldDone, jDueC9],
    notes := [], nextId := 100 }

/-- Scenario C9 run time: 10 days in milliseconds. -/
def nowC9 : Nat := 864000000

/-- Scenario C10: an invoiced business order. -/
def oC10 : OrderSnapshot :=
  { id := "100"
    userId := "u1"
    shopifyOrderId := "o100"
    orderNumber := some "1100"
    totalPrice := some 150
    hasVatProfile := true
    invoiceStatus := .ISSUED
    invoiceId := some "INV-100"
    invoiceDate := some 500
    lastError := none }

/-- Scenario C10 store. -/
def dbC10 : Db :=
  { users := [uIT], profiles := [pIT], orders := [oC10], jobs := [],
    notes := [], nextId := 101 }

/-- Scenario C10: the cancellation webhook for `oC10`. -/
def wC10 : OrderUpdatedWebhook :=
  { id := "o100", cancelledAt := some "2024-06-01T09:00:00Z",
    cancelledReason := some "defective" }

/-- Modelled from the spec glossary, for stating claims about
qualification: a qualified business profile is one with `isBusiness=true`
and a VAT number or fiscal code present. -/
def qualifiedBusinessProfile (p : BillingProfile) : Bool :=
  p.isBusiness && (p.vatNumber.isSome || p.taxCode.isSome)

/-- Counting survives a map that does not change the predicate's verdict. -/
theorem countP_map_pres {α : Type} (f : α → α) (p : α → Bool) (l : List α)
    (h : ∀ a, p (f a) = p a) : (l.map f).countP p = l.countP p := by
  induction l with
  | nil => rfl
  | cons a t ih => simp [List.map_cons, List.countP_cons, ih, h]

/-- Lookup commutes with a map that does not change the predicate's
verdict. -/
theorem find?_map_pres {α : Type} (f : α → α) (p : α → Bool) (l : List α)
    (h : ∀ a, p (f a) = p a) : (l.map f).find? p = (l.find? p).map f := by
  induction l with
  | nil => rfl
  | cons a t ih =>
    cases hp : p a with
    | true =>
      rw [List.map_cons, List.find?_cons_of_pos _ (by rw [h]; exact hp),
        List.find?_cons_of_pos _ hp]
      rfl
    | false =>
      rw [List.map_cons, List.find?_cons_of_neg _ (by rw [h, hp]; simp),
        List.find?_cons_of_neg _ (by rw [hp]; simp), ih]

/-- Lookup skips a prefix in which nothing matches. -/
theorem find?_append_left_none {α : Type} (p : α → Bool) (l1 l2 : List α)
    (h : l1.find? p = none) : (l1 ++ l2).find? p = l2.find? p := by
  induction l1 with
  | nil => rfl
  | cons a t ih =>
    rw [List.find?_cons] at h
    cases hp : p a with
    | true => rw [hp] at h; exact absurd h (by simp)
    | false =>
      rw [hp] at h
      rw [List.cons_append, List.find?_cons_of_neg _ (by rw [hp]; simp), ih h]

/-- In a list with exactly one match, every matching member is that
element. -/
theorem mem_unique_of_countP_one {α : Type} {l : List α} {p : α → Bool} {a : α}
    (h1 : l.countP p = 1) (ha : a ∈ l) (hpa : p a = true) :
    ∀ x ∈ l, p x = true → x = a := by
  induction l with
  | nil => exact absurd ha (List.not_mem_nil a)
  | cons b t ih =>
    rw [List.countP_cons] at h1
    cases hpb : p b with
    | true =>
      simp only [hpb, if_true] at h1
      have ht : t.countP p = 0 := by omega
      have hnone : ∀ x ∈ t, p x = true → False := by
        intro x hx hpx
        have := List.countP_eq_zero.mp ht x hx
        exact this hpx
      have hab : a = b := by
        rcases List.mem_cons.mp ha with h | h
        · exact h
        · exact absurd hpa (by intro hc; exact hnone a h hc)
      intro x hx hpx
      rcases List.mem_cons.mp hx with h | h
      · rw [h, hab]
      · exact absurd hpx (by intro hc; exact hnone x h hc)
    | false =>
      simp only [hpb, if_false] at h1
      have hat : a ∈ t := by
        rcases List.mem_cons.mp ha with h | h
        · rw [h] at hpa; rw [hpa] at hpb; exact absurd hpb (by simp)
        · exact h
      intro x hx hpx
      rcases List.mem_cons.mp hx with h | h
      · rw [h] at hpx; rw [hpx] at hpb; exact absurd hpb (by simp)
      · exact ih h1 hat x h hpx

/-- Counting a conjunction when a single element `a` carries all the `p`
matches: the count is the `p` count when `a` also satisfies `q`, else 0. -/
theorem countP_and_of_unique {α : Type} {l : List α} {p q : α → Bool} {a : α}
    (hu : ∀ x ∈ l, p x = true → x = a) :
    l.countP (fun x => p x && q x) = if q a then l.countP p else 0 := by
  induction l with
  | nil => simp [List.countP_nil]
  | cons b t ih =>
    have hut : ∀ x ∈ t, p x = true → x = a := fun x hx => hu x (List.mem_cons_of_mem b hx)
    rw [List.countP_cons, List.countP_cons, ih hut]
    cases hpb : p b with
    | true =>
      have hb : b = a := hu b (List.mem_cons_self b t) hpb
      subst hb
      cases hq : q b with
      | true => simp [hpb, hq]
      | false => simp [hpb, hq]
    | false =>
      cases hq : q a with
      | true => simp [hpb]
      | false => simp [hpb]

/-- A passing `hasVatProfileCheck` pins the billing country to IT. -/
theorem bcc_of_hasVat {db : Db} {uid : String} {bcc : Option String}
    (h : hasVatProfileCheck (profileOf db uid) bcc = true) : bcc = some "IT" := by
  unfold hasVatProfileCheck at h
  cases hp : profileOf db uid with
  | none => rw [hp] at h; exact absurd h (by simp)
  | some p =>
    rw [hp] at h
    rw [Bool.and_eq_true, Bool.and_eq_true] at h
    exact eq_of_beq h.1.2

/-- A zero count means the lookup finds nothing. -/
theorem find?_eq_none_of_countP_zero {α : Type} {l : List α} {p : α → Bool}
    (h : l.countP p = 0) : l.find? p = none :=
  List.find?_eq_none.mpr (fun x hx => by
    have := List.countP_eq_zero.mp h x hx
    simp [this])

/-- Processing an order-creation event for an existing qualified
home-jurisdiction customer: customers and profiles are untouched, exactly
one more invoice job for the order is enqueued, and the snapshot row count
becomes (or stays) one. -/
theorem qualified_order_event_step (db : Db) (w : OrderWebhook) (now : Nat) (u : User)
    (hu : findUserByShopifyId db w.customerId = some u)
    (hvat : hasVatProfileCheck (profileOf db u.id) (orElseS w.billingCountryCode u.countryCode) = true) :
    (ordersCreatePOST db w now).db.users = db.users ∧
    (ordersCreatePOST db w now).db.profiles = db.profiles ∧
    invoiceJobsFor (ordersCreatePOST db w now).db w.id = invoiceJobsFor db w.id + 1 ∧
    ordersFor (ordersCreatePOST db w now).db w.id =
      (if ordersFor db w.id = 0 then 1 else ordersFor db w.id) := by
  have hbcc : orElseS w.billingCountryCode u.countryCode = some "IT" := bcc_of_hasVat hvat
  have hvat2 : hasVatProfileCheck (profileOf db u.id) (some "IT") = true := by
    rw [← hbcc]; exact hvat
  have hclass : classifyOrder true (some "IT") = .PENDING := by decide
  have hres : ordersCreatePOST db w now =
      { db := createInvoiceJob (upsertOrderSnapshot db w u.id true InvoiceStatus.PENDING) w.id now
        httpStatus := 200 } := by
    simp only [ordersCreatePOST, hu]
    simp only [hbcc]
    simp only [hvat2]
    simp only [hclass]
    simp [orderSnapshotSchemaAllows]
  rw [hres]
  cases hfind : findOrderByShopifyId db w.id with
  | none =>
    have h0 : ordersFor db w.id = 0 := by
      unfold ordersFor
      exact List.countP_eq_zero.mpr (fun a ha => by
        have := List.find?_eq_none.mp hfind a ha
        simp_all)
    simp only [createInvoiceJob, upsertOrderSnapshot, hfind]
    refine ⟨trivial, trivial, ?_, ?_⟩
    · unfold invoiceJobsFor
      simp only [List.countP_append]
      simp [List.countP_cons]
    · rw [if_pos h0]
      unfold ordersFor
      simp only [List.countP_append]
      unfold ordersFor at h0
      simp [List.countP_cons, h0]
  | some o0 =>
    have hne : ¬ ordersFor db w.id = 0 := by
      have hmem := List.mem_of_find?_eq_some hfind
      have hp := List.find?_some hfind
      unfold ordersFor
      have : 0 < db.orders.countP (fun o => o.shopifyOrderId == w.id) :=
        List.countP_pos_iff.mpr ⟨o0, hmem, hp⟩
      omega
    simp only [createInvoiceJob, upsertOrderSnapshot, hfind, updateOrdersByShopifyId]
    refine ⟨trivial, trivial, ?_, ?_⟩
    · unfold invoiceJobsFor
      simp only [List.countP_append]
      simp [List.countP_cons]
    · rw [if_neg hne]
      unfold ordersFor
      simp only [List.countP_append]
      apply countP_map_pres
      intro a
      by_cases h : a.shopifyOrderId == w.id <;> simp [h]

/-- C2 amended: redelivering the same order-creation event for an existing
home-jurisdiction customer with a qualified business profile leaves exactly
one Order Snapshot row for the order id, but each delivery enqueues a fresh
Invoice Job, so the two deliveries leave two Invoice Jobs referencing it. -/
theorem C2_redelivery_duplicates_job (db : Db) (w : OrderWebhook) (now : Nat) (u : User)
    (hu : findUserByShopifyId db w.customerId = some u)
    (hvat : hasVatProfileCheck (profileOf db u.id) (orElseS w.billingCountryCode u.countryCode) = true)
    (h0 : ordersFor db w.id = 0)
    (hj : invoiceJobsFor db w.id = 0) :
    ordersFor (ordersCreatePOST (ordersCreatePOST db w now).db w now).db w.id = 1 ∧
    invoiceJobsFor (ordersCreatePOST (ordersCreatePOST db w now).db w now).db w.id = 2 := by
  obtain ⟨hus1, hpr1, hjob1, hord1⟩ := qualified_order_event_step db w now u hu hvat
  have hu2 : findUserByShopifyId (ordersCreatePOST db w now).db w.customerId = some u := by
    unfold findUserByShopifyId
    rw [hus1]
    exact hu
  have hvat2 : hasVatProfileCheck (profileOf (ordersCreatePOST db w now).db u.id)
      (orElseS w.billingCountryCode u.countryCode) = true := by
    unfold profileOf
    rw [hpr1]
    exact hvat
  obtain ⟨hus2, hpr2, hjob2, hord2⟩ :=
    qualified_order_event_step (ordersCreatePOST db w now).db w now u hu2 hvat2
  constructor
  · rw [hord2, hord1, if_pos h0]
    simp
  · rw [hjob2, hjob1, hj]

/-- C2 witness: the amended behaviour at the concrete scenario store. -/
theorem C2_redelivery_duplicates_job_witness :
    ordersFor (ordersCreatePOST (ordersCreatePOST dbC2 wC2 500).db wC2 500).db "o1" = 1 ∧
    invoiceJobsFor (ordersCreatePOST (ordersCreatePOST dbC2 wC2 500).db wC2 500).db "o1" = 2 :=
  C2_redelivery_duplicates_job dbC2 wC2 500 uIT (by decide) (by decide) (by decide) (by decide)

/-- C6: the claim says a home-jurisdiction order of a non-qualified customer
is recorded as CORRISPETTIVO with no job.  On the code this fails: the
classifier indeed chooses CORRISPETTIVO, but `orderSnapshotSchema`'s enum
(`PENDING/ISSUED/ERROR/FOREIGN`) rejects that value, `parse` throws before
the upsert, and the webhook answers 500 leaving the store untouched — no
snapshot row is recorded at all. -/
theorem C6_corrispettivo_is_rejected_by_schema (db : Db) (w : OrderWebhook) (now : Nat) (u : User)
    (hu : findUserByShopifyId db w.customerId = some u)
    (hbcc : orElseS w.billingCountryCode u.countryCode = some "IT")
    (hvat : hasVatProfileCheck (profileOf db u.id) (orElseS w.billingCountryCode u.countryCode) = false) :
    ordersCreatePOST db w now = { db := db, httpStatus := 500 } := by
  have hvat2 : hasVatProfileCheck (profileOf db u.id) (some "IT") = false := by
    rw [← hbcc]; exact hvat
  have hclass : classifyOrder false (some "IT") = .CORRISPETTIVO := by decide
  simp only [ordersCreatePOST, hu]
  simp only [hbcc]
  simp only [hvat2]
  simp only [hclass]
  simp [orderSnapshotSchemaAllows]

/-- C6 witness: the concrete retail customer's Italian order is refused with
a 500 and no write. -/
theorem C6_corrispettivo_is_rejected_by_schema_witness :
    ordersCreatePOST dbC6 wC6 700 = { db := dbC6, httpStatus := 500 } :=
  C6_corrispettivo_is_rejected_by_schema dbC6 wC6 700 uRetail (by decide) (by decide) (by decide)

/-- Looking an order up after an update keyed by the same Shopify id yields
the updated row, provided the update keeps the key. -/
theorem findOrder_after_update (db : Db) (soid : String) (f : OrderSnapshot → OrderSnapshot)
    (hf : ∀ o, (f o).shopifyOrderId = o.shopifyOrderId) :
    findOrderByShopifyId (updateOrdersByShopifyId db soid f) soid =
      (findOrderByShopifyId db soid).map
        (fun o => if o.shopifyOrderId == soid then f o else o) := by
  unfold findOrderByShopifyId updateOrdersByShopifyId
  apply find?_map_pres
  intro a
  by_cases h : (a.shopifyOrderId == soid) = true <;> simp [h, hf]

/-- Cancelling an order that is already CANCELLED is a no-op 200 (that is
also what the handler answers when the update is not a cancellation). -/
theorem cancel_already_cancelled (db2 : Db) (w : OrderUpdatedWebhook) (o2 : OrderSnapshot)
    (hf : findOrderByShopifyId db2 w.id = some o2)
    (hst : o2.invoiceStatus = .CANCELLED) :
    ordersUpdatedPOST db2 w = { db := db2, httpStatus := 200 } := by
  simp only [ordersUpdatedPOST, hf, hst]
  cases htr : truthyS w.cancelledAt <;> simp

/-- C7: cancelling an ISSUED order with no existing credit note under its
internal id stores exactly one new credit note — PENDING, amount equal to
the order total, reason equal to the cancellation reason — and sets the
order CANCELLED; redelivering the same cancellation is a no-op (no second
note, status stays CANCELLED). -/
theorem C7_cancel_issued_creates_single_note (db : Db) (w : OrderUpdatedWebhook)
    (order : OrderSnapshot) (t : Int) (rsn : String)
    (ho : findOrderByShopifyId db w.id = some order)
    (hs : order.invoiceStatus = .ISSUED)
    (hc : truthyS w.cancelledAt = true)
    (hr : w.cancelledReason = some rsn)
    (hrne : rsn.isEmpty = false)
    (ht : order.totalPrice = some t)
    (hn : db.notes.find? (fun n => n.orderId == order.id) = none) :
    ((ordersUpdatedPOST db w).db.notes.filter (fun n => n.orderId == order.id) =
      [{ id := db.nextId, orderId := order.id, reason := some rsn, totalAmount := t,
         sdiCreditId := none, status := "PENDING" }]) ∧
    ((findOrderByShopifyId (ordersUpdatedPOST db w).db w.id).map (fun o => o.invoiceStatus)
        = some .CANCELLED) ∧
    ((ordersUpdatedPOST (ordersUpdatedPOST db w).db w).db.notes
        = (ordersUpdatedPOST db w).db.notes) ∧
    ((findOrderByShopifyId (ordersUpdatedPOST (ordersUpdatedPOST db w).db w).db w.id).map
        (fun o => o.invoiceStatus) = some .CANCELLED) := by
  have ho2 : db.orders.find? (fun o => o.shopifyOrderId == w.id) = some order := ho
  have hpw : (order.shopifyOrderId == w.id) = true := by
    have := List.find?_some ho2
    simpa using this
  have hod : ∀ s : String, orDefault w.cancelledReason s = rsn := by
    intro s
    rw [hr]
    unfold orDefault
    simp [hrne]
  have hfil : db.notes.filter (fun n => n.orderId == order.id) = [] := by
    rw [List.filter_eq_nil_iff]
    intro a ha
    have := List.find?_eq_none.mp hn a ha
    simp_all
  have h1 : ordersUpdatedPOST db w =
      { db := updateOrdersByShopifyId
          { db with
              notes := db.notes ++
                [{ id := db.nextId
                   orderId := order.id
                   reason := some rsn
                   totalAmount := t
                   sdiCreditId := none
                   status := "PENDING" }]
              nextId := db.nextId + 1 } w.id
          (fun o => { o with invoiceStatus := .CANCELLED
                             lastError := some ("Ordine annullato - Nota di credito creata: " ++ rsn) })
        httpStatus := 200 } := by
    simp only [ordersUpdatedPOST, ho, hc, hs, hn, hod, ht]
    simp
  have hfind1 : findOrderByShopifyId (ordersUpdatedPOST db w).db w.id =
      some { order with invoiceStatus := .CANCELLED, lastError := some ("Ordine annullato - Nota di credito creata: " ++ rsn) } := by
    rw [h1]
    show findOrderByShopifyId (updateOrdersByShopifyId
        { db with
            notes := db.notes ++
              [{ id := db.nextId
                 orderId := order.id
                 reason := some rsn
                 totalAmount := t
                 sdiCreditId := none
                 status := "PENDING" }]
            nextId := db.nextId + 1 } w.id
        (fun o => { o with invoiceStatus := .CANCELLED, lastError := some ("Ordine annullato - Nota di credito creata: " ++ rsn) })) w.id = _
    rw [findOrder_after_update
      { db with
          notes := db.notes ++
            [{ id := db.nextId
               orderId := order.id
               reason := some rsn
               totalAmount := t
               sdiCreditId := none
               status := "PENDING" }]
          nextId := db.nextId + 1 }
      w.id
      (fun o => { o with invoiceStatus := .CANCELLED, lastError := some ("Ordine annullato - Nota di credito creata: " ++ rsn) })
      (fun o => rfl)]
    have ho3 : findOrderByShopifyId
        { db with
            notes := db.notes ++
              [{ id := db.nextId
                 orderId := order.id
                 reason := some rsn
                 totalAmount := t
                 sdiCreditId := none
                 status := "PENDING" }]
            nextId := db.nextId + 1 } w.id = some order := ho
    rw [ho3]
    simp only [Option.map_some']
    rw [if_pos hpw]
  refine ⟨?_, ?_, ?_, ?_⟩
  · rw [h1]
    show (db.notes ++ _).filter _ = _
    rw [List.filter_append, hfil]
    simp
  · rw [hfind1]
    rfl
  · rw [cancel_already_cancelled _ w _ hfind1 rfl]
  · rw [cancel_already_cancelled _ w _ hfind1 rfl]
    show (findOrderByShopifyId (ordersUpdatedPOST db w).db w.id).map _ = _
    rw [hfind1]
    rfl

/-- C7 witness: the concrete invoiced order `oC7` cancelled twice. -/
theorem C7_cancel_issued_creates_single_note_witness :
    ((ordersUpdatedPOST dbC7 wC7).db.notes.filter (fun n => n.orderId == "70") =
      [{ id := 71, orderId := "70", reason := some "customer", totalAmount := 320,
         sdiCreditId := none, status := "PENDING" }]) ∧
    ((findOrderByShopifyId (ordersUpdatedPOST dbC7 wC7).db "o70").map (fun o => o.invoiceStatus)
        = some .CANCELLED) ∧
    ((ordersUpdatedPOST (ordersUpdatedPOST dbC7 wC7).db wC7).db.notes
        = (ordersUpdatedPOST dbC7 wC7).db.notes) ∧
    ((findOrderByShopifyId (ordersUpdatedPOST (ordersUpdatedPOST dbC7 wC7).db wC7).db "o70").map
        (fun o => o.invoiceStatus) = some .CANCELLED) :=
  C7_cancel_issued_creates_single_note dbC7 wC7 oC7 320 "customer"
    (by decide) (by decide) (by decide) (by decide) (by decide) (by decide) (by decide)

/-- C10: credit notes are keyed inconsistently — the manual endpoint stores
them under the external Shopify order id while the cancellation webhook
looks them up (and stores them) under the internal snapshot id.  For an
ISSUED order whose only credit note came from the manual endpoint, the
cancellation therefore does not detect it and creates a second note, keyed
by the internal id. -/
theorem C10_manual_note_unseen_by_cancellation (db : Db) (order : OrderSnapshot) (u : User)
    (w : OrderUpdatedWebhook) (rsn cid : String) (cdate : Nat)
    (ho : findOrderByShopifyId db order.shopifyOrderId = some order)
    (hs : order.invoiceStatus = .ISSUED)
    (hu : userOf db order = some u)
    (hcc : u.countryCode = some "IT")
    (hvp : order.hasVatProfile = true)
    (hp : (profileOf db u.id).isSome = true)
    (hkey : (order.shopifyOrderId == order.id) = false)
    (hw : w.id = order.shopifyOrderId)
    (hc : truthyS w.cancelledAt = true)
    (hn : db.notes = []) :
    ((creditNotesIssuePOST db order.shopifyOrderId rsn (.ok cid cdate)).db.orders = db.orders) ∧
    (notesFor (creditNotesIssuePOST db order.shopifyOrderId rsn (.ok cid cdate)).db
        order.shopifyOrderId = 1) ∧
    (notesFor (creditNotesIssuePOST db order.shopifyOrderId rsn (.ok cid cdate)).db
        order.id = 0) ∧
    ((ordersUpdatedPOST (creditNotesIssuePOST db order.shopifyOrderId rsn (.ok cid cdate)).db
        w).db.notes.length = 2) ∧
    (notesFor (ordersUpdatedPOST (creditNotesIssuePOST db order.shopifyOrderId rsn
        (.ok cid cdate)).db w).db order.id = 1) := by
  obtain ⟨p, hp2⟩ := Option.isSome_iff_exists.mp hp
  have h1 : creditNotesIssuePOST db order.shopifyOrderId rsn (.ok cid cdate) =
      { db := { db with
          notes := db.notes ++
            [{ id := db.nextId
               orderId := order.shopifyOrderId
               reason := some rsn
               totalAmount := order.totalPrice.getD 0
               sdiCreditId := some cid
               status := "ISSUED" }]
          nextId := db.nextId + 1 }
        httpStatus := 200 } := by
    simp only [creditNotesIssuePOST, ho, hs, hu, hcc, hvp, hp2]
    simp
  have hfind2 : findOrderByShopifyId
      (creditNotesIssuePOST db order.shopifyOrderId rsn (.ok cid cdate)).db w.id
        = some order := by
    rw [h1, hw]
    exact ho
  have h2 : ordersUpdatedPOST (creditNotesIssuePOST db order.shopifyOrderId rsn
      (.ok cid cdate)).db w =
      { db := updateOrdersByShopifyId
          { db with
              notes := db.notes ++
                [{ id := db.nextId
                   orderId := order.shopifyOrderId
                   reason := some rsn
                   totalAmount := order.totalPrice.getD 0
                   sdiCreditId := some cid
                   status := "ISSUED" }] ++
                [{ id := db.nextId + 1
                   orderId := order.id
                   reason := some (orDefault w.cancelledReason "Ordine annullato")
                   totalAmount := order.totalPrice.getD 0
                   sdiCreditId := none
                   status := "PENDING" }]
              nextId := db.nextId + 1 + 1 } w.id
          (fun o => { o with invoiceStatus := .CANCELLED, lastError := some ("Ordine annullato - Nota di credito creata: " ++ orDefault w.cancelledReason "N/A") })
        httpStatus := 200 } := by
    simp only [ordersUpdatedPOST, hfind2, hs, hc]
    rw [h1]
    have hfd : List.find? (fun n => n.orderId == order.id)
        (db.notes ++
          [{ id := db.nextId
             orderId := order.shopifyOrderId
             reason := some rsn
             totalAmount := order.totalPrice.getD 0
             sdiCreditId := some cid
             status := "ISSUED" }]) = none := by
      rw [hn]
      simp [List.find?, hkey]
    simp only [hfd]
    simp [List.append_assoc]
  refine ⟨?_, ?_, ?_, ?_, ?_⟩
  · rw [h1]
  · rw [h1]
    unfold notesFor
    rw [hn]
    simp [List.countP_cons]
  · rw [h1]
    unfold notesFor
    rw [hn]
    simp [List.countP_cons, hkey]
  · rw [h2]
    show (db.notes ++ _ ++ _).length = 2
    rw [hn]
    rfl
  · rw [h2]
    unfold notesFor
    show List.countP _ (db.notes ++ _ ++ _) = 1
    rw [hn]
    simp [List.countP_cons, List.countP_append, hkey]

/-- C10 witness: the concrete invoiced order `oC10`, a manual credit note,
then its cancellation. -/
theorem C10_manual_note_unseen_by_cancellation_witness :
    ((creditNotesIssuePOST dbC10 "o100" "refund" (.ok "CN-1" 900)).db.orders = dbC10.orders) ∧
    (notesFor (creditNotesIssuePOST dbC10 "o100" "refund" (.ok "CN-1" 900)).db "o100" = 1) ∧
    (notesFor (creditNotesIssuePOST dbC10 "o100" "refund" (.ok "CN-1" 900)).db "100" = 0) ∧
    ((ordersUpdatedPOST (creditNotesIssuePOST dbC10 "o100" "refund" (.ok "CN-1" 900)).db
        wC10).db.notes.length = 2) ∧
    (notesFor (ordersUpdatedPOST (creditNotesIssuePOST dbC10 "o100" "refund"
        (.ok "CN-1" 900)).db wC10).db "100" = 1) :=
  C10_manual_note_unseen_by_cancellation dbC10 oC10 uIT wC10 "refund" "CN-1" 900
    (by decide) (by decide) (by decide) (by decide) (by decide) (by decide) (by decide)
    (by decide) (by decide) (by decide)

/-- Mapping a function that fixes every member is the identity. -/
theorem map_id_of_pres {α : Type} (l : List α) (f : α → α) (h : ∀ a ∈ l, f a = a) :
    l.map f = l := by
  induction l with
  | nil => rfl
  | cons a t ih =>
    rw [List.map_cons, h a (List.mem_cons_self a t),
      ih (fun x hx => h x (List.mem_cons_of_mem a hx))]

/-- C4 amended: when a claimed invoice job fails its last allowed attempt
(`attempts` of the fetched snapshot already at `maxRetries - 1`), the job
becomes FAILED with the message recorded in both failure paths; the order is
set to ERROR with the message only when the failure was reported without an
exception (order missing, missing profile), while a thrown exception
(Issuer error) leaves every order untouched.  A non-final failure returns
the job to PENDING rescheduled `now + 5 min` in both paths; a final failure
never leaves the job PENDING. -/
theorem C4_final_failure_paths (db : Db) (job : QueueJob) (msg : String) (now : Nat)
    (htype : job.jobType = "invoice") :
    (maxRetries - 1 ≤ job.attempts →
      (softFail db job msg now).jobs = db.jobs.map (fun j =>
        if j.id == job.id then { j with status := .FAILED, lastError := some msg } else j) ∧
      (softFail db job msg now).orders = db.orders.map (fun o =>
        if o.shopifyOrderId == job.payloadShopifyOrderId then
          { o with invoiceStatus := .ERROR, lastError := some msg } else o) ∧
      (exceptionFail db job msg now).jobs = db.jobs.map (fun j =>
        if j.id == job.id then { j with status := .FAILED, lastError := some msg } else j) ∧
      (exceptionFail db job msg now).orders = db.orders) ∧
    (job.attempts < maxRetries - 1 →
      (softFail db job msg now).jobs = db.jobs.map (fun j =>
        if j.id == job.id then
          { j with status := .PENDING, lastError := some msg, scheduledAt := now + fiveMinutesMs }
        else j) ∧
      (softFail db job msg now).orders = db.orders ∧
      (exceptionFail db job msg now).jobs = db.jobs.map (fun j =>
        if j.id == job.id then
          { j with status := .PENDING, lastError := some msg, scheduledAt := now + fiveMinutesMs }
        else j) ∧
      (exceptionFail db job msg now).orders = db.orders) := by
  constructor
  · intro hfin
    have hb : isFinalFailure job = true := by
      unfold isFinalFailure
      exact decide_eq_true hfin
    unfold softFail exceptionFail updateJob updateOrdersByShopifyId
    simp only [hb, htype]
    simp
  · intro hlt
    have hb : isFinalFailure job = false := by
      unfold isFinalFailure
      exact decide_eq_false (by omega)
    unfold softFail exceptionFail updateJob updateOrdersByShopifyId
    simp only [hb]
    simp

/-- C4 witness: the final-failure conclusions at the concrete scenario
(job `jC4` that has already consumed two attempts). -/
theorem C4_final_failure_paths_witness :
    maxRetries - 1 ≤ jC4.attempts ∧
    (exceptionFail dbC4 jC4 "SDI timeout" 2000).orders = dbC4.orders :=
  ⟨by decide, ((C4_final_failure_paths dbC4 jC4 "SDI timeout" 2000 rfl).1 (by decide)).2.2.2⟩

/-- C5 amended: a job whose order is missing goes through the ordinary
failure handling, not a permanent one: the attempt is consumed and, while
attempts remain, the job returns to PENDING rescheduled five minutes later
with the "Order not found" message; only when the fetched snapshot already
carried `maxRetries - 1` attempts does it become FAILED.  Orders are never
touched (there is no matching row). -/
theorem C5_order_missing_standard_retry (db : Db) (job : QueueJob) (issuer : IssueOutcome)
    (now : Nat)
    (htype : job.jobType = "invoice")
    (hmiss : findOrderByShopifyId db job.payloadShopifyOrderId = none) :
    (processOneJob db job issuer now).db = softFail (claimJob db job.id) job "Order not found" now ∧
    (job.attempts < maxRetries - 1 →
      (processOneJob db job issuer now).db.jobs = (claimJob db job.id).jobs.map (fun j =>
        if j.id == job.id then
          { j with status := .PENDING, lastError := some "Order not found", scheduledAt := now + fiveMinutesMs }
        else j)) ∧
    (maxRetries - 1 ≤ job.attempts →
      (processOneJob db job issuer now).db.jobs = (claimJob db job.id).jobs.map (fun j =>
        if j.id == job.id then
          { j with status := .FAILED, lastError := some "Order not found" }
        else j)) ∧
    (processOneJob db job issuer now).db.orders = db.orders := by
  have hmiss2 : findOrderByShopifyId (claimJob db job.id) job.payloadShopifyOrderId = none :=
    hmiss
  have hbranch : jobBranch (claimJob db job.id) job = .orderMissing := by
    unfold jobBranch
    simp [htype, hmiss2]
  have hpo : (processOneJob db job issuer now).db =
      softFail (claimJob db job.id) job "Order not found" now := by
    show (performBranch (claimJob db job.id) job
      (jobBranch (claimJob db job.id) job) issuer now).db = _
    rw [hbranch]
    rfl
  have hnomatch : ∀ o ∈ db.orders, (o.shopifyOrderId == job.payloadShopifyOrderId) = false := by
    intro o hmem
    have := List.find?_eq_none.mp hmiss o hmem
    simp_all
  refine ⟨hpo, ?_, ?_, ?_⟩
  · intro hlt
    have hb : isFinalFailure job = false := by
      unfold isFinalFailure
      exact decide_eq_false (by omega)
    rw [hpo]
    unfold softFail updateJob
    simp only [hb]
    simp
  · intro hfin
    have hb : isFinalFailure job = true := by
      unfold isFinalFailure
      exact decide_eq_true hfin
    rw [hpo]
    unfold softFail updateJob updateOrdersByShopifyId
    simp only [hb, htype]
    simp
  · rw [hpo]
    unfold softFail updateJob updateOrdersByShopifyId
    cases hb : isFinalFailure job with
    | false => simp [claimJob, updateJob]
    | true =>
      simp only [htype]
      simp only [Bool.and_true, Bool.true_and]
      show List.map _ (claimJob db job.id).orders = db.orders
      have : (claimJob db job.id).orders = db.orders := rfl
      rw [this]
      apply map_id_of_pres
      intro a ha
      rw [hnomatch a ha]
      simp

/-- C5 witness: the amended behaviour at the concrete first-attempt job with
a missing order. -/
theorem C5_order_missing_standard_retry_witness :
    jC5.attempts < maxRetries - 1 ∧
    (processOneJob dbC5 jC5 (.ok "X" 0) 1000).db.jobs =
      (claimJob dbC5 jC5.id).jobs.map (fun j =>
        if j.id == jC5.id then
          { j with status := .PENDING, lastError := some "Order not found", scheduledAt := 1000 + fiveMinutesMs }
        else j) :=
  ⟨by decide,
    (C5_order_missing_standard_retry dbC5 jC5 (.ok "X" 0) 1000 rfl (by decide)).2.1 (by decide)⟩

/-- Enqueueing a list of orders never touches the order table. -/
theorem enqueueAll_orders (l : List OrderSnapshot) (db : Db) (now : Nat) :
    (enqueueAll db l now).orders = db.orders := by
  induction l generalizing db with
  | nil => rfl
  | cons o t ih =>
    unfold enqueueAll at ih ⊢
    rw [List.foldl_cons, ih]
    rfl

/-- Enqueueing a list of orders adds one invoice job per listed order whose
Shopify id matches. -/
theorem enqueueAll_count (l : List OrderSnapshot) (db : Db) (now : Nat) (soid : String) :
    invoiceJobsFor (enqueueAll db l now) soid =
      invoiceJobsFor db soid + l.countP (fun o => o.shopifyOrderId == soid) := by
  induction l generalizing db with
  | nil => simp [enqueueAll, List.countP_nil]
  | cons o t ih =>
    unfold enqueueAll at ih ⊢
    rw [List.foldl_cons, ih, List.countP_cons]
    have hc : invoiceJobsFor (createInvoiceJob db o.shopifyOrderId now) soid =
        invoiceJobsFor db soid + (if (o.shopifyOrderId == soid) = true then 1 else 0) := by
      unfold invoiceJobsFor createInvoiceJob
      rw [List.countP_append]
      cases h : o.shopifyOrderId == soid <;> simp [List.countP_cons, h]
    rw [hc]
    cases h : o.shopifyOrderId == soid <;> simp [h] <;> omega

/-- The profile upsert never touches orders or jobs. -/
theorem upsertProfile_orders_jobs (db : Db) (uid : String) (pin : ProfileInput) :
    (upsertProfile db uid pin).orders = db.orders ∧
    (upsertProfile db uid pin).jobs = db.jobs := by
  unfold upsertProfile
  cases h : profileOf db uid <;> simp

/-- Counting matches in a filtered image when a single element `a` carries
all the `p` matches and the mapping preserves `p`: the count is the full
`p` count when the image of `a` passes the filter, else 0. -/
theorem countP_filter_map_unique {α : Type} {l : List α} (f : α → α) (p q : α → Bool)
    {a : α} (hpres : ∀ x, p (f x) = p x) (hu : ∀ x ∈ l, p x = true → x = a) :
    ((l.map f).filter q).countP p = if q (f a) then l.countP p else 0 := by
  induction l with
  | nil => simp
  | cons b t ih =>
    have hut : ∀ x ∈ t, p x = true → x = a := fun x hx => hu x (List.mem_cons_of_mem b hx)
    rw [List.map_cons, List.filter_cons]
    by_cases hpb : p b = true
    · have hb : b = a := hu b (List.mem_cons_self b t) hpb
      subst hb
      by_cases hq : q (f b) = true
      · rw [if_pos hq, if_pos hq, List.countP_cons, List.countP_cons, ih hut, if_pos hq]
        have hfb : p (f b) = true := by rw [hpres b]; exact hpb
        simp [hfb, hpb]
      · rw [if_neg hq, if_neg hq, ih hut, if_neg hq]
    · have hpb2 : p b = false := by simpa using hpb
      have hfb : p (f b) = false := by rw [hpres b]; exact hpb2
      by_cases hq : q (f b) = true
      · rw [if_pos hq, List.countP_cons, ih hut, List.countP_cons]
        by_cases hqa : q (f a) = true <;> simp [hqa, hfb, hpb2]
      · rw [if_neg hq, ih hut, List.countP_cons]
        by_cases hqa : q (f a) = true <;> simp [hqa, hpb2]

/-- C8 amended: the re-classification is triggered only by a profile update
carrying a VAT number (an update with `isBusiness=true` and only a fiscal
code — also a qualified business profile per the glossary — triggers
nothing, see the counterexample).  When a VAT number for country IT is
supplied, every PENDING order of that customer is flipped to
`hasVatProfile=true` and gets exactly one new Invoice Job in this
invocation, and no order in any other status (ISSUED, ERROR, CANCELLED,
FOREIGN, CORRISPETTIVO) is re-enqueued. -/
theorem C8_reenqueue_needs_vat_number (db : Db) (cid : String) (pin : ProfileInput)
    (now : Nat) (u : User) (o : OrderSnapshot)
    (hu : findUserByShopifyId db cid = some u)
    (hvat : truthyS pin.vatNumber = true)
    (hit : pin.countryCode = some "IT")
    (ho : o ∈ db.orders) (houser : o.userId = u.id)
    (huniq : db.orders.countP (fun o2 => o2.shopifyOrderId == o.shopifyOrderId) = 1) :
    (o.invoiceStatus = .PENDING →
      (∃ o2 ∈ (billingProfilePOST db cid pin now).db.orders,
        o2.id = o.id ∧ o2.hasVatProfile = true ∧ o2.invoiceStatus = .PENDING) ∧
      invoiceJobsFor (billingProfilePOST db cid pin now).db o.shopifyOrderId =
        invoiceJobsFor db o.shopifyOrderId + 1) ∧
    (o.invoiceStatus ≠ .PENDING →
      invoiceJobsFor (billingProfilePOST db cid pin now).db o.shopifyOrderId =
        invoiceJobsFor db o.shopifyOrderId) := by
  obtain ⟨hord1, hjobs1⟩ := upsertProfile_orders_jobs db u.id { pin with isBusiness := true }
  have hpin : (if truthyS pin.vatNumber = true then { pin with isBusiness := true } else pin)
      = { pin with isBusiness := true } := by
    rw [hvat]
    rfl
  have hpo : (o.shopifyOrderId == o.shopifyOrderId) = true := by simp
  have huo : ∀ x ∈ db.orders, (x.shopifyOrderId == o.shopifyOrderId) = true → x = o :=
    mem_unique_of_countP_one huniq ho hpo
  have hpres : ∀ a : OrderSnapshot,
      ((if a.userId == u.id && a.invoiceStatus == .PENDING then
        { a with hasVatProfile := true } else a).shopifyOrderId == o.shopifyOrderId)
      = (a.shopifyOrderId == o.shopifyOrderId) := by
    intro a
    by_cases h : (a.userId == u.id && a.invoiceStatus == .PENDING) = true <;> simp [h]
  simp only [billingProfilePOST, hu, hpin]
  split
  case isFalse hcondF =>
    exfalso
    simp [hvat, hit] at hcondF
  case isTrue hcondT =>
  simp only [hord1]
  constructor
  · intro hpend
    have hcond : (o.userId == u.id && o.invoiceStatus == .PENDING) = true := by
      simp [houser, hpend]
    constructor
    · show ∃ o2 ∈ (enqueueAll _ _ now).orders, _
      rw [enqueueAll_orders]
      refine ⟨{ o with hasVatProfile := true }, ?_, rfl, rfl, hpend⟩
      show _ ∈ List.map _ db.orders
      have hmm : (if (o.userId == u.id && o.invoiceStatus == InvoiceStatus.PENDING) = true then
          { o with hasVatProfile := true } else o) ∈ List.map (fun o2 =>
            if o2.userId == u.id && o2.invoiceStatus == .PENDING then
              { o2 with hasVatProfile := true } else o2) db.orders :=
        List.mem_map_of_mem _ ho
      rw [hcond] at hmm
      simpa using hmm
    · show invoiceJobsFor (enqueueAll _ _ now) _ = _
      rw [enqueueAll_count]
      rw [countP_filter_map_unique _ _ _ hpres huo]
      unfold invoiceJobsFor
      simp only [hjobs1]
      simp [houser, hpend, huniq]
  · intro hnp
    show invoiceJobsFor (enqueueAll _ _ now) _ = _
    rw [enqueueAll_count]
    rw [countP_filter_map_unique _ _ _ hpres huo]
    unfold invoiceJobsFor
    simp only [hjobs1]
    simp [beq_eq_false_iff_ne.mpr hnp]

/-- C8 witness: the amended behaviour when the retail customer's profile is
updated with a VAT number: the PENDING order `oC8` flips and is enqueued
exactly once. -/
theorem C8_reenqueue_needs_vat_number_witness :
    (∃ o2 ∈ (billingProfilePOST dbC8 "c2" pinVat 800).db.orders,
      o2.id = "80" ∧ o2.hasVatProfile = true ∧ o2.invoiceStatus = .PENDING) ∧
    invoiceJobsFor (billingProfilePOST dbC8 "c2" pinVat 800).db "o80" =
      invoiceJobsFor dbC8 "o80" + 1 :=
  (C8_reenqueue_needs_vat_number dbC8 "c2" pinVat 800 uRetail oC8
    (by decide) (by decide) (by decide) (by decide) (by decide) (by decide)).1 (by decide)

/-- C1: the claim says an outstanding invoice job re-checks the order's
status and neither issues an invoice for a CANCELLED order nor moves it away
from CANCELLED.  On the code this fails: the per-job chain checks ISSUED and
FOREIGN but not CANCELLED, so for a cancelled business order the cron run
calls the Issuer and flips the order to ISSUED with the new invoice id. -/
theorem C1_retry_issues_invoice_for_cancelled_order :
    (processOneJob dbC1 jC1 (.ok "INV-90" 999) 1000).issuerCalled = true ∧
    (findOrderByShopifyId (retryCronGET dbC1 (fun _ => .ok "INV-90" 999) 1000) "o5").map
      (fun o => (o.invoiceStatus, o.invoiceId)) = some (.ISSUED, some "INV-90") := by
  decide

/-- C2 counterexample: redelivering the same order-creation event for a
qualified home-jurisdiction customer leaves one snapshot but two invoice
jobs — the claim's "at most one Invoice Job" is false. -/
theorem C2_counterexample :
    ordersFor (ordersCreatePOST (ordersCreatePOST dbC2 wC2 500).db wC2 500).db "o1" = 1 ∧
    invoiceJobsFor (ordersCreatePOST (ordersCreatePOST dbC2 wC2 500).db wC2 500).db "o1" = 2 ∧
    ¬ invoiceJobsFor (ordersCreatePOST (ordersCreatePOST dbC2 wC2 500).db wC2 500).db "o1" ≤ 1 := by
  decide

/-- C3 counterexample: under the lockstep interleaving of two Retry Engine
invocations over the same due job, both invocations successfully call the
Issuer for that job — the claim's "never both" is false. -/
theorem C3_counterexample :
    (execSched 1000 (.ok "INV-30" 777) initC3 schedC3).w1.calledIssuer = true ∧
    (execSched 1000 (.ok "INV-30" 777) initC3 schedC3).w2.calledIssuer = true := by
  decide

/-- C3 amended: the claim step is an unconditional update keyed by the job
id alone (a separate read-then-write, no "only if still PENDING" condition),
and consequently there is an interleaving of two concurrent runs over the
same due-job set in which both successfully call the Issuer for the same
job. -/
theorem C3_claim_step_unconditional :
    (∀ (db : Db) (jid : Nat),
      (claimJob db jid).jobs = db.jobs.map (fun j =>
        if j.id == jid then { j with status := .PROCESSING, attempts := j.attempts + 1 } else j)) ∧
    ∃ sched : List Bool,
      (execSched 1000 (.ok "INV-30" 777) initC3 sched).w1.calledIssuer = true ∧
      (execSched 1000 (.ok "INV-30" 777) initC3 sched).w2.calledIssuer = true :=
  ⟨fun _ _ => rfl, ⟨schedC3, by decide, by decide⟩⟩

/-- C4 counterexample: an invoice job failing its last allowed attempt
through a thrown exception (Issuer error) ends FAILED, but the order is left
PENDING — the claim's "the order becomes ERROR with the error message
recorded" is false on the exception path. -/
theorem C4_counterexample :
    ((processOneJob dbC4 jC4 (.throwErr "SDI timeout") 2000).db.jobs.find?
        (fun j => j.id == 400)).map (fun j => (j.status, j.lastError)) =
      some (.FAILED, some "SDI timeout") ∧
    (findOrderByShopifyId (processOneJob dbC4 jC4 (.throwErr "SDI timeout") 2000).db "o40").map
        (fun o => o.invoiceStatus) = some .PENDING ∧
    ¬ (findOrderByShopifyId (processOneJob dbC4 jC4 (.throwErr "SDI timeout") 2000).db "o40").map
        (fun o => o.invoiceStatus) = some .ERROR := by
  decide

/-- C5 counterexample: a first-attempt invoice job whose order is missing is
not failed terminally — it returns to PENDING rescheduled five minutes
later, contradicting "permanent failure, no retry". -/
theorem C5_counterexample :
    ((processOneJob dbC5 jC5 (.ok "X" 0) 1000).db.jobs.find? (fun j => j.id == 500)).map
        (fun j => (j.status, j.scheduledAt, j.lastError)) =
      some (.PENDING, 1000 + fiveMinutesMs, some "Order not found") := by
  decide

/-- C8 counterexample: a profile update that makes the customer a qualified
business for Italy via a fiscal code only (no VAT number) triggers no
re-classification: the customer's PENDING order keeps `hasVatProfile=false`
and no invoice job is enqueued — the claim's "every order still PENDING
without hasVatProfile flips and gets exactly one new Invoice Job" is
false. -/
theorem C8_counterexample :
    ((profileOf (billingProfilePOST dbC8 "c2" pinTaxOnly 700).db "u2").map
        qualifiedBusinessProfile = some true) ∧
    ((profileOf (billingProfilePOST dbC8 "c2" pinTaxOnly 700).db "u2").map
        (fun p => p.countryCode) = some (some "IT")) ∧
    ((findOrderByShopifyId (billingProfilePOST dbC8 "c2" pinTaxOnly 700).db "o80").map
        (fun o => o.hasVatProfile) = some false) ∧
    invoiceJobsFor (billingProfilePOST dbC8 "c2" pinTaxOnly 700).db "o80" = 0 := by
  decide

/-- C9: the run purges the 7-day-old COMPLETED job (id 91, whose
`processedAt` was written on completion) but keeps the long-terminal FAILED
job (id 90): the failure path never writes `processedAt`, so the purge's
`processedAt < cutoff` filter can never match a FAILED row — contradicting
"no COMPLETED or FAILED job older than 7 days remains". -/
theorem C9_failed_jobs_never_purged :
    (retryCronGET dbC9 (fun _ => .throwErr "e") nowC9).jobs.any
        (fun j => j.id == 90 && j.status == .FAILED) = true ∧
    (retryCronGET dbC9 (fun _ => .throwErr "e") nowC9).jobs.any
        (fun j => j.id == 91) = false := by
  decide

end ShopifyBilling
